import Mathlib

/-!
Shallow embedding of the core simulation of `src/GunGamewithDots.py`
(single-file pygame arena shooter), together with theorems checking the
natural-language specification's claims against it.

Modelling conventions:
* Python floats are modelled as rationals (`ℚ`); all arithmetic in the
  relevant code paths is exact at these values.
* `pygame.Rect` stores integers; assigning a float to a rect coordinate
  truncates toward zero (`pyInt`), and pygame's `center` setters use an
  arithmetic right shift, i.e. floor division by 2 (`Int.fdiv`).
* `random.random()` / `random.uniform(..)` / `random.randint(..)` draws are
  modelled as oracle streams (`ℕ → ℚ`, `ℕ → ℤ × ℤ`) consumed at successive
  indices in the order the source consumes them.
* `math.cos` / `math.sin` / `Vector2.normalize` are external math routines;
  they are passed in as abstract function parameters (no claim depends on
  their values).
-/

namespace GunGame

/-- Python `int(float)`: truncation toward zero. -/
def pyInt (q : ℚ) : ℤ := if q < 0 then ⌈q⌉ else ⌊q⌋

/-- `pygame.Rect`: integer left/top corner plus width and height. -/
structure Rect where
  x : ℤ
  y : ℤ
  w : ℤ
  h : ℤ
deriving DecidableEq

/-- `Rect.colliderect`: strict overlap on both axes; rects with zero width
or height never collide (pygame semantics). -/
def collideRect (a b : Rect) : Bool :=
  a.w ≠ 0 && a.h ≠ 0 && b.w ≠ 0 && b.h ≠ 0 &&
  a.x < b.x + b.w && b.x < a.x + a.w &&
  a.y < b.y + b.h && b.y < a.y + a.h

/-- `TileMap.rect_collide`: `[w for w in wall_rects if rect.colliderect(w)]`. -/
def rect_collide (walls : List Rect) (r : Rect) : List Rect :=
  walls.filter fun w => collideRect r w

/-- `rect.centerx` getter: `x + w // 2` (floor division). -/
def Rect.centerx (r : Rect) : ℤ := r.x + r.w.fdiv 2

/-- `rect.centery` getter. -/
def Rect.centery (r : Rect) : ℤ := r.y + r.h.fdiv 2

/-- `rect.centerx = v` setter: `x = v - w // 2`. -/
def setCenterx (r : Rect) (v : ℤ) : Rect := { r with x := v - r.w.fdiv 2 }

/-- `rect.centery = v` setter. -/
def setCentery (r : Rect) (v : ℤ) : Rect := { r with y := v - r.h.fdiv 2 }

/-- `rect.right = v` setter: `x = v - w`. -/
def setRight (r : Rect) (v : ℤ) : Rect := { r with x := v - r.w }

/-- `rect.left = v` setter. -/
def setLeft (r : Rect) (v : ℤ) : Rect := { r with x := v }

/-- `rect.bottom = v` setter: `y = v - h`. -/
def setBottom (r : Rect) (v : ℤ) : Rect := { r with y := v - r.h }

/-- `rect.top = v` setter. -/
def setTop (r : Rect) (v : ℤ) : Rect := { r with y := v }

/-- `image.get_rect(center=pos)`: a w×h rect centered (with float
truncation) at a continuous position. -/
def mkEntityRect (px py : ℚ) (w h : ℤ) : Rect :=
  { x := pyInt px - w.fdiv 2, y := pyInt py - h.fdiv 2, w := w, h := h }

/-- The kinetic state shared by `Entity` subclasses: continuous position and
velocity plus the integer bounding rect. -/
structure Ent where
  posx : ℚ
  posy : ℚ
  velx : ℚ
  vely : ℚ
  rect : Rect
deriving DecidableEq

/-- X phase of `Entity.collide_move`: displace `pos.x` by `vel.x * dt`,
resync `rect.centerx = int(pos.x)`, then for each overlapping wall clamp the
leading edge and set `pos.x = rect.centerx`. -/
def moveX (walls : List Rect) (dt : ℚ) (e : Ent) : Ent :=
  let px := e.posx + e.velx * dt
  let r0 := setCenterx e.rect (pyInt px)
  let s :=
    (rect_collide walls r0).foldl
      (fun (s : ℚ × Rect) w =>
        let r :=
          if 0 < e.velx then setRight s.2 w.x
          else if e.velx < 0 then setLeft s.2 (w.x + w.w)
          else s.2
        ((r.centerx : ℚ), r))
      (px, r0)
  { e with posx := s.1, rect := s.2 }

/-- Y phase of `Entity.collide_move`, run after the X phase. -/
def moveY (walls : List Rect) (dt : ℚ) (e : Ent) : Ent :=
  let py := e.posy + e.vely * dt
  let r0 := setCentery e.rect (pyInt py)
  let s :=
    (rect_collide walls r0).foldl
      (fun (s : ℚ × Rect) w =>
        let r :=
          if 0 < e.vely then setBottom s.2 w.y
          else if e.vely < 0 then setTop s.2 (w.y + w.h)
          else s.2
        ((r.centery : ℚ), r))
      (py, r0)
  { e with posy := s.1, rect := s.2 }

/-- `Entity.collide_move(dt, tilemap, speed)`: X axis fully resolved first,
then Y using the already-clamped X state.  The `speed` parameter is unused
in the source and kept for signature fidelity. -/
def collide_move (walls : List Rect) (dt : ℚ) (speed : ℚ) (e : Ent) : Ent :=
  moveY walls dt (moveX walls dt e)

/-!  Tile map generation (`TileMap.generate`).  The grid is produced cellwise:
the border is forced solid, each interior cell draws `random.random()` (one
draw per interior cell, row-major, modelled by indexing the oracle at
`(y-1)*(w-2)+(x-1)`) and is solid iff the draw is `< 0.06`, and afterwards the
central plaza (`x` in `range(cx-7, cx+8)`, `y` in `range(cy-5, cy+6)`,
restricted to interior cells) is carved open. -/

/-- Value of cell `(x, y)` of the generated grid (`1` = solid, `0` = open). -/
def gridGen (rand : ℕ → ℚ) (w h x y : ℤ) : ℕ :=
  if (h / 2 - 5 ≤ y ∧ y < h / 2 + 6) ∧ (w / 2 - 7 ≤ x ∧ x < w / 2 + 8) ∧
     (0 < x ∧ x < w - 1 ∧ 0 < y ∧ y < h - 1) then 0
  else if x = 0 ∨ x = w - 1 ∨ y = 0 ∨ y = h - 1 then 1
  else if rand ((y - 1) * (w - 2) + (x - 1)).toNat < 6 / 100 then 1 else 0

/-!  Camera.  `apply` subtracts the offset and, while `shake_frames > 0`, adds
a per-frame random jitter vector; the jitter draw is passed in as `jit`.
`Game.screen_to_world` adds the offset to a screen position and never consults
the jitter or shake state. -/

/-- Camera state: follow offset plus transient shake. -/
structure Camera where
  offx : ℚ
  offy : ℚ
  shake_frames : ℤ
  shake_mag : ℤ
deriving DecidableEq

/-- `Camera.apply(pos)`: world-to-screen; `jit` is the uniform jitter draw
used only while `shake_frames > 0`. -/
def Camera.apply (c : Camera) (jit : ℚ × ℚ) (pos : ℚ × ℚ) : ℚ × ℚ :=
  let j : ℚ × ℚ := if 0 < c.shake_frames then jit else (0, 0)
  (pos.1 - c.offx + j.1, pos.2 - c.offy + j.2)

/-- `Camera.shake(frames, mag)`. -/
def camShake (c : Camera) (frames mag : ℤ) : Camera :=
  { c with shake_frames := frames, shake_mag := mag }

/-- `Game.screen_to_world(screen_pos)`: `Vector2(screen_pos) + camera.offset`. -/
def screen_to_world (c : Camera) (s : ℚ × ℚ) : ℚ × ℚ :=
  (s.1 + c.offx, s.2 + c.offy)

/-!  Player, weapons, projectiles, enemies, particles. -/

/-- The two weapons. -/
inductive Weapon
  | rifle
  | shotgun
deriving DecidableEq

/-- Player state (`Player.__init__`). -/
structure Player where
  posx : ℚ
  posy : ℚ
  velx : ℚ
  vely : ℚ
  rect : Rect
  speed : ℚ
  hp : ℤ
  max_hp : ℤ
  invuln : ℤ
  dash_cd : ℤ
  reload_time : ℤ
  weapon : Weapon
  ammo_rifle : ℤ
  ammo_shotgun : ℤ
  mag_rifle : ℤ
  mag_shotgun : ℤ
  fire_cd : ℤ
deriving DecidableEq

/-- `self.ammo[w]`. -/
def Player.ammoOf (p : Player) : Weapon → ℤ
  | .rifle => p.ammo_rifle
  | .shotgun => p.ammo_shotgun

/-- `self.ammo[w] = v`. -/
def Player.setAmmo (p : Player) : Weapon → ℤ → Player
  | .rifle, v => { p with ammo_rifle := v }
  | .shotgun, v => { p with ammo_shotgun := v }

/-- `self.mag[w]`. -/
def Player.magOf (p : Player) : Weapon → ℤ
  | .rifle => p.mag_rifle
  | .shotgun => p.mag_shotgun

/-- `self.rpm[w]` (rounds per minute). -/
def rpmOf : Weapon → ℚ
  | .rifle => 480
  | .shotgun => 90

/-- A freshly constructed player at `pos` (radius 22, so a 44×44 rect). -/
def mkPlayer (pos : ℚ × ℚ) : Player :=
  { posx := pos.1, posy := pos.2, velx := 0, vely := 0,
    rect := mkEntityRect pos.1 pos.2 44 44,
    speed := 320, hp := 150, max_hp := 150, invuln := 0, dash_cd := 0,
    reload_time := 0, weapon := .rifle,
    ammo_rifle := 30, ammo_shotgun := 8, mag_rifle := 30, mag_shotgun := 8,
    fire_cd := 0 }

/-- `Player.update_cooldowns`: tick down the four timers; when the reload
timer reaches 0 the currently active weapon's magazine is refilled. -/
def update_cooldowns (p : Player) : Player :=
  let p1 := if 0 < p.invuln then { p with invuln := p.invuln - 1 } else p
  let p2 := if 0 < p1.dash_cd then { p1 with dash_cd := p1.dash_cd - 1 } else p1
  let p3 :=
    if 0 < p2.reload_time then
      let q := { p2 with reload_time := p2.reload_time - 1 }
      if q.reload_time ≤ 0 then q.setAmmo q.weapon (q.magOf q.weapon) else q
    else p2
  if 0 < p3.fire_cd then { p3 with fire_cd := p3.fire_cd - 1 } else p3

/-- `Player.damage(amt)`: ignored while invulnerable, else subtract and set
the invulnerability timer to 25 ticks. -/
def Player.damage (p : Player) (amt : ℤ) : Player :=
  if 0 < p.invuln then p else { p with hp := p.hp - amt, invuln := 25 }

/-- `Player.reload`: start the weapon-dependent reload timer
(`int(FPS * 0.8)` rifle, `int(FPS * 1.2)` shotgun) only when not already
reloading and the magazine is not full. -/
def Player.reload (p : Player) : Player :=
  if p.reload_time ≤ 0 ∧ p.ammoOf p.weapon < p.magOf p.weapon then
    { p with reload_time :=
        pyInt (60 * (if p.weapon = Weapon.rifle then 8 / 10 else 12 / 10)) }
  else p

/-- `Player.switch_weapon`: unconditional toggle. -/
def switch_weapon (p : Player) : Player :=
  { p with weapon := if p.weapon = Weapon.rifle then Weapon.shotgun else Weapon.rifle }

/-- `Player.aim_dir(world_mouse)`: direction to the cursor, normalized when
nonzero; `normf` is the external `Vector2.normalize`. -/
def aim_dir (normf : ℚ × ℚ → ℚ × ℚ) (p : Player) (wm : ℚ × ℚ) : ℚ × ℚ :=
  let v : ℚ × ℚ := (wm.1 - p.posx, wm.2 - p.posy)
  if v.1 * v.1 + v.2 * v.2 ≠ 0 then normf v else v

/-- Projectile state (`Bullet.__init__`: 10×10 sprite). -/
structure Bullet where
  posx : ℚ
  posy : ℚ
  velx : ℚ
  vely : ℚ
  life : ℤ
  rect : Rect
deriving DecidableEq

/-- `Bullet(pos, vel, life)`. -/
def mkBullet (pos vel : ℚ × ℚ) (life : ℤ) : Bullet :=
  { posx := pos.1, posy := pos.2, velx := vel.1, vely := vel.2,
    life := life, rect := mkEntityRect pos.1 pos.2 10 10 }

/-- Enemy state (`Enemy.__init__`). -/
structure Enemy where
  posx : ℚ
  posy : ℚ
  velx : ℚ
  vely : ℚ
  hp : ℤ
  tier : ℤ
  speed : ℚ
  radius : ℤ
  rect : Rect
deriving DecidableEq

/-- `Enemy(pos, tier)`: radius `20 + 3*(tier-1)`, speed `170 + 20*(tier-1)`,
hp `40 + 20*(tier-1)`. -/
def mkEnemy (pos : ℚ × ℚ) (tier : ℤ) : Enemy :=
  let r : ℤ := 20 + 3 * (tier - 1)
  { posx := pos.1, posy := pos.2, velx := 0, vely := 0,
    hp := 40 + 20 * (tier - 1), tier := tier,
    speed := ((170 + 20 * (tier - 1) : ℤ) : ℚ), radius := r,
    rect := mkEntityRect pos.1 pos.2 (2 * r) (2 * r) }

/-- Cosmetic particle. -/
structure Particle where
  posx : ℚ
  posy : ℚ
  velx : ℚ
  vely : ℚ
  life : ℤ
  color : ℕ
deriving DecidableEq

/-- Color tag of `COLORS["shot"]` (muzzle flash). -/
def colorShot : ℕ := 0

/-- Color tag of `COLORS["wall"]` (dash dust). -/
def colorWall : ℕ := 1

/-- `Particle(pos, vel, life, color)`. -/
def mkParticle (pos vel : ℚ × ℚ) (life : ℤ) (color : ℕ) : Particle :=
  { posx := pos.1, posy := pos.2, velx := vel.1, vely := vel.2,
    life := life, color := color }

/-- Scalar multiple of a 2D vector (`Vector2 * float`). -/
def vscale (k : ℚ) (v : ℚ × ℚ) : ℚ × ℚ := (k * v.1, k * v.2)

/-- The 2D rotation applied to the aim direction in `Game.shoot`;
`mcos`/`msin` stand for `math.cos`/`math.sin`. -/
def rot2 (mcos msin : ℚ → ℚ) (s : ℚ) (d : ℚ × ℚ) : ℚ × ℚ :=
  (mcos s * d.1 - msin s * d.2, msin s * d.1 + mcos s * d.2)

/-- Session state owned by `Game` (the immutable map is passed separately to
the operations that read it). -/
structure Game where
  player : Player
  enemies : List Enemy
  bullets : List Bullet
  particles : List Particle
  camera : Camera
  wave : ℤ
  score : ℤ
  paused : Bool
  game_over : Bool
deriving DecidableEq

/-- `Player.try_dash(camera, particles)`: gated on `dash_cd <= 0` and a
nonzero velocity; teleports by `normalize(vel) * 140` (not arena-checked),
resyncs the rect center, sets `dash_cd = 50`, shakes the camera and emits 16
dust particles (two uniform draws each). -/
def try_dash (normf : ℚ × ℚ → ℚ × ℚ) (rand : ℕ → ℚ) (p : Player)
    (cam : Camera) (parts : List Particle) : Player × Camera × List Particle :=
  if p.dash_cd ≤ 0 ∧ 0 < p.velx * p.velx + p.vely * p.vely then
    let nd := normf (p.velx, p.vely)
    let px := p.posx + nd.1 * 140
    let py := p.posy + nd.2 * 140
    let p' := { p with
        posx := px,
        posy := py,
        rect := setCenterx (setCentery p.rect (pyInt py)) (pyInt px),
        dash_cd := 50 }
    let dust := (List.range 16).map fun j =>
      mkParticle (px, py) (rand (2 * j), rand (2 * j + 1)) 18 colorWall
    (p', camShake cam 6 5, parts ++ dust)
  else (p, cam, parts)

/-- Muzzle-flash burst: `count` particles at the muzzle, each consuming two
uniform draws starting at stream index `base`. -/
def muzzleFlash (rand : ℕ → ℚ) (base : ℕ) (muzzle : ℚ × ℚ) (count : ℕ) :
    List Particle :=
  (List.range count).map fun j =>
    mkParticle muzzle (rand (base + 2 * j), rand (base + 2 * j + 1)) 14 colorShot

/-- `Game.shoot(world_mouse)`: gated on `reload_time > 0` / `fire_cd > 0` /
`ammo[w] <= 0` (early returns).  Rifle: one projectile with one spread draw,
lifetime 70; shotgun: six pellets with independent spread draws, speed scaled
by 0.9, lifetime 50.  Both set `fire_cd = max(1, int(60/(rpm/60)))`, consume
one round, emit a muzzle flash (8 or 16 particles) and shake the camera. -/
def shoot (mcos msin : ℚ → ℚ) (normf : ℚ × ℚ → ℚ × ℚ) (rand : ℕ → ℚ)
    (g : Game) (wm : ℚ × ℚ) : Game :=
  if 0 < g.player.reload_time ∨ 0 < g.player.fire_cd then g
  else
    let w := g.player.weapon
    if g.player.ammoOf w ≤ 0 then g
    else
      let dir := aim_dir normf g.player wm
      let muzzle : ℚ × ℚ := (g.player.posx + dir.1 * 30, g.player.posy + dir.2 * 30)
      let speed : ℚ := if w = Weapon.rifle then 900 else 750
      let fcd : ℤ := max 1 (pyInt (60 / (rpmOf w / 60)))
      if w = Weapon.rifle then
        let b := mkBullet muzzle (vscale speed (rot2 mcos msin (rand 0) dir)) 70
        let p := { g.player with fire_cd := fcd }
        let p := p.setAmmo w (p.ammoOf w - 1)
        { g with
            player := p,
            bullets := g.bullets ++ [b],
            particles := g.particles ++ muzzleFlash rand 1 muzzle 8,
            camera := camShake g.camera 5 6 }
      else
        let bs := (List.range 6).map fun j =>
          mkBullet muzzle (vscale (speed * (9 / 10)) (rot2 mcos msin (rand j) dir)) 50
        let p := { g.player with fire_cd := fcd }
        let p := p.setAmmo w (p.ammoOf w - 1)
        { g with
            player := p,
            bullets := g.bullets ++ bs,
            particles := g.particles ++ muzzleFlash rand 6 muzzle 16,
            camera := camShake g.camera 8 9 }

/-!  Bullet-vs-enemy resolution (`Game.run`, lines 492-523).  The outer loop
runs over a snapshot of the enemy group; for each enemy the inner loop runs
over a fresh snapshot of the live bullet group.  Every overlapping bullet
deals 20 damage and is killed (removed from the live group); whenever the
enemy's hit points are `<= 0` after a hit, `score += 10 * tier` and the enemy
is killed.  Hit-spark and death-burst particles are cosmetic and omitted
here. -/

/-- Per-enemy fold state: the enemy's evolving hit points, whether `kill()`
has been called on it, the running score, and the bullets still live. -/
structure HitState where
  hp : ℤ
  killed : Bool
  score : ℤ
  kept : List Bullet
deriving DecidableEq

/-- One inner-loop iteration for a fixed enemy (rect `er`, tier `tier`). -/
def bulletHitStep (er : Rect) (tier : ℤ) (s : HitState) (b : Bullet) : HitState :=
  if collideRect er b.rect then
    let hp' := s.hp - 20
    if hp' ≤ 0 then
      { hp := hp', killed := true, score := s.score + 10 * tier, kept := s.kept }
    else
      { hp := hp', killed := s.killed, score := s.score, kept := s.kept }
  else
    { s with kept := s.kept ++ [b] }

/-- Inner loop: resolve one enemy against the current live bullets. -/
def procEnemyHits (e : Enemy) (bs : List Bullet) (sc : ℤ) : HitState :=
  bs.foldl (bulletHitStep e.rect e.tier) { hp := e.hp, killed := false, score := sc, kept := [] }

/-- Outer loop over the enemy snapshot: returns the surviving enemies (with
updated hit points), the surviving bullets, and the new score. -/
def hitPhase : List Enemy → List Bullet → ℤ → List Enemy × List Bullet × ℤ
  | [], bs, sc => ([], bs, sc)
  | e :: es, bs, sc =>
    let s := procEnemyHits e bs sc
    let rest := hitPhase es s.kept s.score
    (if s.killed then rest.1 else { e with hp := s.hp } :: rest.1, rest.2.1, rest.2.2)

/-!  Wave spawning (`Game.spawn_wave`) and the wave trigger in `Game.run`.
`randq` models the `random.random()` tier draws (one per enemy, consumed only
when `wave >= 3`); `randxy` models the pair of `random.randint` draws of each
rejection-sampling iteration.  The source's `while True` search is modelled
with explicit fuel, returning `none` when the fuel runs out. -/

/-- Squared Euclidean distance (`(a - b).length() > d` is compared squared,
both sides being nonnegative). -/
def dist2 (a b : ℚ × ℚ) : ℚ := (a.1 - b.1) ^ 2 + (a.2 - b.2) ^ 2

/-- The rejection-sampling spawn search: draw a cell, accept it when it is
open and its world center is farther than 380 from the player; returns the
accepted world position and the next oracle index. -/
def findSpawn (randxy : ℕ → ℤ × ℤ) (grid : ℤ → ℤ → ℕ) (pp : ℚ × ℚ) :
    ℕ → ℕ → Option ((ℚ × ℚ) × ℕ)
  | 0, _ => none
  | fuel + 1, i =>
    let xy := randxy i
    if grid xy.2 xy.1 = 0 then
      let pos : ℚ × ℚ := ((xy.1 : ℚ) * 48 + 24, (xy.2 : ℚ) * 48 + 24)
      if dist2 pos pp > 380 ^ 2 then some (pos, i + 1)
      else findSpawn randxy grid pp fuel (i + 1)
    else findSpawn randxy grid pp fuel (i + 1)

/-- Spawn `n` enemies for wave number `wave`; `j` is the tier-draw index and
`i` the position-draw index. -/
def spawnEnemies (randq : ℕ → ℚ) (randxy : ℕ → ℤ × ℤ) (grid : ℤ → ℤ → ℕ)
    (pp : ℚ × ℚ) (wave : ℤ) (fuel : ℕ) : ℕ → ℕ → ℕ → Option (List Enemy)
  | 0, _, _ => some []
  | n + 1, j, i =>
    let tier : ℤ := if wave < 3 then 1 else if randq j < 3 / 5 then 2 else 3
    match findSpawn randxy grid pp fuel i with
    | none => none
    | some (pos, i') =>
      match spawnEnemies randq randxy grid pp wave fuel n (j + 1) i' with
      | none => none
      | some es => some (mkEnemy pos tier :: es)

/-- `Game.spawn_wave`: increment the wave counter, then add `6 + wave * 2`
enemies to the group. -/
def spawn_wave (randq : ℕ → ℚ) (randxy : ℕ → ℤ × ℤ) (grid : ℤ → ℤ → ℕ)
    (g : Game) (fuel : ℕ) : Option Game :=
  let wave' := g.wave + 1
  match spawnEnemies randq randxy grid (g.player.posx, g.player.posy) wave' fuel
      (6 + wave' * 2).toNat 0 0 with
  | none => none
  | some es => some { g with wave := wave', enemies := g.enemies ++ es }

/-- The per-tick wave trigger in `Game.run`:
`if len(self.enemies) == 0: self.spawn_wave()`. -/
def next_wave_check (randq : ℕ → ℚ) (randxy : ℕ → ℤ × ℤ) (grid : ℤ → ℤ → ℕ)
    (g : Game) (fuel : ℕ) : Option Game :=
  if g.enemies.length = 0 then spawn_wave randq randxy grid g fuel else some g

/-- Convenience constructor: a minimal session state around a given player
(used in concrete instantiations below). -/
def mkGame (p : Player) : Game :=
  { player := p, enemies := [], bullets := [], particles := [],
    camera := ⟨0, 0, 0, 0⟩, wave := 1, score := 0, paused := false,
    game_over := false }

/-- A shotgun-wielding player one tick from finishing a reload, with both
magazines partly used (used in concrete instantiations below). -/
def midReloadPlayer : Player :=
  { mkPlayer (0, 0) with
      weapon := Weapon.shotgun,
      ammo_rifle := 4,
      ammo_shotgun := 2,
      reload_time := 1 }

/-- An all-open grid (used in concrete instantiations below). -/
def openGrid : ℤ → ℤ → ℕ := fun _ _ => 0

/-- A pre-first-wave session (wave counter 0), player at the origin. -/
def waveZeroGame : Game := { mkGame (mkPlayer (0, 0)) with wave := 0 }

/-- The session after the first wave spawns on `openGrid` with the position
oracle always answering cell `(10, 10)`: 8 tier-1 enemies at world position
`(504, 504)`. -/
def waveOneGame : Game :=
  { mkGame (mkPlayer (0, 0)) with
      wave := 1,
      enemies := List.replicate 8 (mkEnemy (504, 504) 1) }

/-!  Helper lemmas. -/

theorem collideRect_iff (a b : Rect) :
    collideRect a b = true ↔
      (a.w ≠ 0 ∧ a.h ≠ 0 ∧ b.w ≠ 0 ∧ b.h ≠ 0 ∧
       a.x < b.x + b.w ∧ b.x < a.x + a.w ∧ a.y < b.y + b.h ∧ b.y < a.y + a.h) := by
  simp [collideRect, and_assoc]

theorem rect_collide_singleton (w r : Rect) :
    rect_collide [w] r = if collideRect r w then [w] else [] := by
  unfold rect_collide
  cases hc : collideRect r w <;> simp [List.filter, hc]

/-!  C7: player damage and invulnerability. -/

/-- C7: damage applied while the invulnerability timer is positive leaves the
whole player unchanged; with the timer at 0 it subtracts exactly the amount,
sets the timer to 25 ticks, and modifies no other field. -/
theorem c7_damage_invuln (p : Player) (amt : ℤ) :
    (0 < p.invuln → p.damage amt = p)
    ∧ (p.invuln = 0 →
        p.damage amt = { p with hp := p.hp - amt, invuln := 25 }) := by
  constructor
  · intro h
    simp [Player.damage, h]
  · intro h
    simp [Player.damage, h]

/-- Witness for C7: a fresh player (timer 0) loses exactly 12 hp and becomes
invulnerable; the same player with timer 5 is untouched. -/
theorem c7_damage_invuln_witness :
    ((mkPlayer (0, 0)).damage 12
      = { mkPlayer (0, 0) with hp := (mkPlayer (0, 0)).hp - 12, invuln := 25 })
    ∧ ({ mkPlayer (0, 0) with invuln := 5 }.damage 12
      = { mkPlayer (0, 0) with invuln := 5 }) :=
  ⟨(c7_damage_invuln (mkPlayer (0, 0)) 12).2 rfl,
   (c7_damage_invuln { mkPlayer (0, 0) with invuln := 5 } 12).1 (by decide)⟩

/-!  C9: world/screen conversion and jitter. -/

/-- C9: converting a world point to screen (with jitter draw `jit`) and back
differs from the original point by exactly the jitter term, which is exactly
zero whenever `shake_frames = 0`; and `screen_to_world` (used for mouse aim)
reads only the camera offset, never the shake state. -/
theorem c9_screen_world_inverse (c c' : Camera) (jit p s : ℚ × ℚ) :
    (screen_to_world c (Camera.apply c jit p)
      = (p.1 + (if 0 < c.shake_frames then jit.1 else 0),
         p.2 + (if 0 < c.shake_frames then jit.2 else 0)))
    ∧ (c.shake_frames = 0 → screen_to_world c (Camera.apply c jit p) = p)
    ∧ (c'.offx = c.offx → c'.offy = c.offy →
        screen_to_world c' s = screen_to_world c s) := by
  refine ⟨?_, ?_, ?_⟩
  · simp only [screen_to_world, Camera.apply]
    split_ifs <;> simp <;> constructor <;> ring
  · intro h
    simp [screen_to_world, Camera.apply, h]
  · intro h1 h2
    simp [screen_to_world, h1, h2]

/-- Witness for C9: with the shake counter at 0 the round trip is exact, and
two cameras sharing an offset but differing in shake state convert a screen
point identically. -/
theorem c9_screen_world_inverse_witness :
    (screen_to_world ⟨3, 4, 0, 6⟩ (Camera.apply ⟨3, 4, 0, 6⟩ (9, 9) (7, 8)) = (7, 8))
    ∧ (screen_to_world ⟨3, 4, 10, 6⟩ (5, 5) = screen_to_world ⟨3, 4, 0, 0⟩ (5, 5)) :=
  ⟨(c9_screen_world_inverse ⟨3, 4, 0, 6⟩ ⟨3, 4, 0, 6⟩ (9, 9) (7, 8) (5, 5)).2.1 rfl,
   (c9_screen_world_inverse ⟨3, 4, 0, 0⟩ ⟨3, 4, 10, 6⟩ (9, 9) (7, 8) (5, 5)).2.2 rfl rfl⟩

/-!  C2: arena generation layout.  The source carves `x` in
`range(cx-7, cx+8)` (15 columns) but `y` in `range(cy-5, cy+6)` — only 11
rows, not 13.  For the configured 48×30 map, `cx = 24`, `cy = 15`, so the
guaranteed-open plaza is columns 17..31 and rows 10..20. -/

/-- C2 counterexample: under the all-zeros random stream every interior
non-plaza cell is solid, and the cells `(24, 9)` and `(24, 21)` — the central
column of rows `cy - 6` and `cy + 6`, contained in every 15×13 region
centered in the 48×30 grid — are Solid.  Hence no centered 15×13 region is
entirely Open; the carved plaza is only 15×11. -/
theorem c2_plaza_not_13_rows :
    gridGen (fun _ => 0) 48 30 24 9 = 1 ∧ gridGen (fun _ => 0) 48 30 24 21 = 1 := by
  constructor <;>
  · unfold gridGen
    rw [if_neg (by decide), if_neg (by decide), if_pos (by norm_num)]

/-- C2 (amended): for every random stream, the border ring of the 48×30 grid
is entirely Solid, the centered 15×11 plaza (columns 17..31, rows 10..20) is
entirely Open, and every other interior cell is Solid exactly when its
(row-major interior-indexed) draw is below 6%. -/
theorem c2_generate_layout (rand : ℕ → ℚ) (x y : ℤ) :
    ((0 ≤ x ∧ x < 48 ∧ 0 ≤ y ∧ y < 30 ∧ (x = 0 ∨ x = 47 ∨ y = 0 ∨ y = 29)) →
      gridGen rand 48 30 x y = 1)
    ∧ ((17 ≤ x ∧ x ≤ 31 ∧ 10 ≤ y ∧ y ≤ 20) → gridGen rand 48 30 x y = 0)
    ∧ ((0 < x ∧ x < 47 ∧ 0 < y ∧ y < 29 ∧ ¬(17 ≤ x ∧ x ≤ 31 ∧ 10 ≤ y ∧ y ≤ 20)) →
      (gridGen rand 48 30 x y = 1 ↔
        rand ((y - 1) * 46 + (x - 1)).toNat < 6 / 100)) := by
  refine ⟨?_, ?_, ?_⟩ <;> intro h
  · unfold gridGen
    rw [if_neg (by omega), if_pos (by omega)]
  · unfold gridGen
    rw [if_pos (by omega)]
  · unfold gridGen
    rw [if_neg (by omega), if_neg (by omega)]
    have : ((48 : ℤ) - 2) = 46 := by norm_num
    rw [this]
    split_ifs with hr
    · simp [hr]
    · simp [hr]

/-- Witness for C2: a border cell, a plaza cell, and an interior cell whose
all-zeros draw (0 < 6%) makes it solid. -/
theorem c2_generate_layout_witness :
    gridGen (fun _ => 0) 48 30 0 0 = 1
    ∧ gridGen (fun _ => 0) 48 30 24 15 = 0
    ∧ (gridGen (fun _ => 0) 48 30 5 5 = 1 ↔ (0 : ℚ) < 6 / 100) :=
  ⟨(c2_generate_layout (fun _ => 0) 0 0).1 (by norm_num),
   (c2_generate_layout (fun _ => 0) 24 15).2.1 (by norm_num),
   (c2_generate_layout (fun _ => 0) 5 5).2.2 (by norm_num)⟩

/-!  C6: policy-rejected actions are complete no-ops. -/

/-- C6: a fire request with an empty magazine, a running reload timer or a
running fire cooldown returns the whole game state unchanged; a reload
request with a full magazine or while already reloading leaves the player
unchanged; a dash request with zero velocity or a running dash cooldown
leaves player, camera and particles unchanged. -/
theorem c6_rejected_noops (mcos msin : ℚ → ℚ) (normf : ℚ × ℚ → ℚ × ℚ)
    (rand : ℕ → ℚ) (g : Game) (wm : ℚ × ℚ) (p : Player) (cam : Camera)
    (parts : List Particle) :
    ((g.player.ammoOf g.player.weapon = 0 ∨ 0 < g.player.reload_time ∨
        0 < g.player.fire_cd) →
      shoot mcos msin normf rand g wm = g)
    ∧ ((p.ammoOf p.weapon = p.magOf p.weapon ∨ 0 < p.reload_time) →
      p.reload = p)
    ∧ (((p.velx = 0 ∧ p.vely = 0) ∨ 0 < p.dash_cd) →
      try_dash normf rand p cam parts = (p, cam, parts)) := by
  refine ⟨?_, ?_, ?_⟩
  · intro h
    by_cases h1 : 0 < g.player.reload_time ∨ 0 < g.player.fire_cd
    · simp [shoot, h1]
    · have h2 : g.player.ammoOf g.player.weapon ≤ 0 := by
        rcases h with ha | hr | hf
        · omega
        · exact absurd (Or.inl hr) h1
        · exact absurd (Or.inr hf) h1
      simp [shoot, h1, h2]
  · intro h
    unfold Player.reload
    rw [if_neg]
    rintro ⟨h1, h2⟩
    rcases h with ha | hr <;> omega
  · intro h
    unfold try_dash
    rw [if_neg]
    rintro ⟨h1, h2⟩
    rcases h with ⟨hx, hy⟩ | hd
    · rw [hx, hy] at h2
      norm_num at h2
    · omega

/-- Witness for C6: a blocked shot (reloading), a rejected reload (full
magazine) and a rejected dash (zero velocity) on concrete states. -/
theorem c6_rejected_noops_witness :
    (shoot (fun _ => 1) (fun _ => 0) id (fun _ => 0)
        { player := { mkPlayer (0, 0) with reload_time := 10 }, enemies := [],
          bullets := [], particles := [], camera := ⟨0, 0, 0, 0⟩, wave := 1,
          score := 0, paused := false, game_over := false } (50, 50)
      = { player := { mkPlayer (0, 0) with reload_time := 10 }, enemies := [],
          bullets := [], particles := [], camera := ⟨0, 0, 0, 0⟩, wave := 1,
          score := 0, paused := false, game_over := false })
    ∧ ((mkPlayer (0, 0)).reload = mkPlayer (0, 0))
    ∧ (try_dash id (fun _ => 0) (mkPlayer (0, 0)) ⟨0, 0, 0, 0⟩ []
        = (mkPlayer (0, 0), ⟨0, 0, 0, 0⟩, [])) :=
  ⟨(c6_rejected_noops (fun _ => 1) (fun _ => 0) id (fun _ => 0) _ (50, 50)
      (mkPlayer (0, 0)) ⟨0, 0, 0, 0⟩ []).1 (Or.inr (Or.inl (by decide))),
   (c6_rejected_noops (fun _ => 1) (fun _ => 0) id (fun _ => 0)
      { player := mkPlayer (0, 0), enemies := [], bullets := [], particles := [],
        camera := ⟨0, 0, 0, 0⟩, wave := 1, score := 0, paused := false,
        game_over := false } (50, 50) (mkPlayer (0, 0)) ⟨0, 0, 0, 0⟩ []).2.1
      (Or.inl rfl),
   (c6_rejected_noops (fun _ => 1) (fun _ => 0) id (fun _ => 0)
      { player := mkPlayer (0, 0), enemies := [], bullets := [], particles := [],
        camera := ⟨0, 0, 0, 0⟩, wave := 1, score := 0, paused := false,
        game_over := false } (50, 50) (mkPlayer (0, 0)) ⟨0, 0, 0, 0⟩ []).2.2
      (Or.inl ⟨rfl, rfl⟩)⟩

/-!  C3: successful fire events. -/

/-- C3: with ammo in the active magazine and both the fire cooldown and the
reload timer at 0, a fire call creates exactly one projectile for the rifle
and exactly six for the shotgun, decrements the active magazine by exactly 1
in both cases, and leaves the fire cooldown strictly positive. -/
theorem c3_fire_effects (mcos msin : ℚ → ℚ) (normf : ℚ × ℚ → ℚ × ℚ)
    (rand : ℕ → ℚ) (g : Game) (wm : ℚ × ℚ)
    (ha : 0 < g.player.ammoOf g.player.weapon)
    (hf : g.player.fire_cd = 0) (hr : g.player.reload_time = 0) :
    (g.player.weapon = Weapon.rifle →
      (shoot mcos msin normf rand g wm).bullets.length = g.bullets.length + 1)
    ∧ (g.player.weapon = Weapon.shotgun →
      (shoot mcos msin normf rand g wm).bullets.length = g.bullets.length + 6)
    ∧ (shoot mcos msin normf rand g wm).player.ammoOf g.player.weapon
        = g.player.ammoOf g.player.weapon - 1
    ∧ 0 < (shoot mcos msin normf rand g wm).player.fire_cd := by
  have h1 : ¬(0 < g.player.reload_time ∨ 0 < g.player.fire_cd) := by omega
  have hmax : (0 : ℤ) < max 1 (pyInt (60 / (rpmOf g.player.weapon / 60))) :=
    lt_of_lt_of_le zero_lt_one (le_max_left 1 _)
  cases hw : g.player.weapon with
  | rifle =>
    have h2 : ¬(g.player.ammo_rifle ≤ 0) := by
      rw [hw] at ha
      simp only [Player.ammoOf] at ha
      omega
    rw [hw] at hmax
    refine ⟨fun _ => ?_, fun h => Weapon.noConfusion h, ?_, ?_⟩ <;>
    · simp [shoot, hw, h1, h2, Player.ammoOf, Player.setAmmo]
      try exact hmax
  | shotgun =>
    have h2 : ¬(g.player.ammo_shotgun ≤ 0) := by
      rw [hw] at ha
      simp only [Player.ammoOf] at ha
      omega
    rw [hw] at hmax
    refine ⟨fun h => Weapon.noConfusion h, fun _ => ?_, ?_, ?_⟩ <;>
    · simp [shoot, hw, h1, h2, Player.ammoOf, Player.setAmmo]
      try exact hmax

/-- Witness for C3: a fresh rifle player (30 rounds, cooldowns at 0) fires:
one new projectile, 29 rounds left, positive cooldown. -/
theorem c3_fire_effects_witness :
    (shoot (fun _ => 1) (fun _ => 0) id (fun _ => 0)
        { player := mkPlayer (0, 0), enemies := [], bullets := [],
          particles := [], camera := ⟨0, 0, 0, 0⟩, wave := 1, score := 0,
          paused := false, game_over := false } (50, 50)).bullets.length = 0 + 1
    ∧ (shoot (fun _ => 1) (fun _ => 0) id (fun _ => 0)
        { player := mkPlayer (0, 0), enemies := [], bullets := [],
          particles := [], camera := ⟨0, 0, 0, 0⟩, wave := 1, score := 0,
          paused := false, game_over := false } (50, 50)).player.ammoOf
          Weapon.rifle = 30 - 1 :=
  ⟨(c3_fire_effects (fun _ => 1) (fun _ => 0) id (fun _ => 0) _ (50, 50)
      (by decide) rfl rfl).1 rfl,
   (c3_fire_effects (fun _ => 1) (fun _ => 0) id (fun _ => 0) _ (50, 50)
      (by decide) rfl rfl).2.2.1⟩

/-!  C10: the reload timer is one global field of the player, not a
per-weapon timer. -/

/-- C10: while the reload timer is positive, firing is blocked whatever the
active weapon is; when the timer expires (value 1 ticking to 0 in
`update_cooldowns`) the magazine refilled is that of the weapon active at
that instant, so switching weapons mid-reload refills the newly active
weapon and leaves the originally reloading weapon's ammo unchanged. -/
theorem c10_reload_timer_global (mcos msin : ℚ → ℚ) (normf : ℚ × ℚ → ℚ × ℚ)
    (rand : ℕ → ℚ) (g : Game) (wm : ℚ × ℚ) (p : Player) :
    (0 < g.player.reload_time → shoot mcos msin normf rand g wm = g)
    ∧ (p.reload_time = 1 →
        ((update_cooldowns p).ammoOf p.weapon = p.magOf p.weapon
         ∧ (update_cooldowns (switch_weapon p)).ammoOf (switch_weapon p).weapon
             = p.magOf (switch_weapon p).weapon
         ∧ (update_cooldowns (switch_weapon p)).ammoOf p.weapon
             = p.ammoOf p.weapon)) := by
  constructor
  · intro h
    simp [shoot, Or.inl h]
  · intro h
    by_cases hi : 0 < p.invuln <;> by_cases hd : 0 < p.dash_cd <;>
      by_cases hf : 0 < p.fire_cd <;> cases hw : p.weapon <;>
        simp [update_cooldowns, switch_weapon, hi, hd, hf, hw, h,
          Player.setAmmo, Player.ammoOf, Player.magOf]

/-- Witness for C10: a shotgun-wielding player one tick from finishing a
reload; firing is blocked, and after switching to the rifle the rifle
magazine (not the shotgun one) is refilled when the timer expires. -/
theorem c10_reload_timer_global_witness :
    (shoot (fun _ => 1) (fun _ => 0) id (fun _ => 0) (mkGame midReloadPlayer)
        (50, 50) = mkGame midReloadPlayer)
    ∧ (update_cooldowns (switch_weapon midReloadPlayer)).ammoOf
        (switch_weapon midReloadPlayer).weapon
      = midReloadPlayer.magOf (switch_weapon midReloadPlayer).weapon
    ∧ (update_cooldowns (switch_weapon midReloadPlayer)).ammoOf Weapon.shotgun = 2 :=
  ⟨(c10_reload_timer_global (fun _ => 1) (fun _ => 0) id (fun _ => 0)
      (mkGame midReloadPlayer) (50, 50) (mkPlayer (0, 0))).1 (by decide),
   ((c10_reload_timer_global (fun _ => 1) (fun _ => 0) id (fun _ => 0)
      (mkGame midReloadPlayer) (50, 50) midReloadPlayer).2 rfl).2.1,
   ((c10_reload_timer_global (fun _ => 1) (fun _ => 0) id (fun _ => 0)
      (mkGame midReloadPlayer) (50, 50) midReloadPlayer).2 rfl).2.2⟩

/-!  C4 / C5: bullet-vs-enemy resolution. -/

theorem procEnemyHits_nil (e : Enemy) (sc : ℤ) :
    procEnemyHits e [] sc = ⟨e.hp, false, sc, []⟩ := rfl

theorem hitPhase_no_bullets (es : List Enemy) (sc : ℤ) :
    hitPhase es [] sc = (es, [], sc) := by
  induction es with
  | nil => rfl
  | cons e es ih =>
    have he : ({ e with hp := e.hp } : Enemy) = e := rfl
    simp [hitPhase, procEnemyHits_nil, ih, he]

theorem procEnemyHits_miss (e : Enemy) (b : Bullet) (sc : ℤ)
    (h : collideRect e.rect b.rect = false) :
    procEnemyHits e [b] sc = ⟨e.hp, false, sc, [b]⟩ := by
  simp [procEnemyHits, bulletHitStep, h]

theorem procEnemyHits_hit (e : Enemy) (b : Bullet) (sc : ℤ)
    (h : collideRect e.rect b.rect = true) :
    procEnemyHits e [b] sc =
      if e.hp - 20 ≤ 0 then ⟨e.hp - 20, true, sc + 10 * e.tier, []⟩
      else ⟨e.hp - 20, false, sc, []⟩ := by
  simp only [procEnemyHits, List.foldl_cons, List.foldl_nil, bulletHitStep, h,
    if_true]

/-- C4: a single projectile overlapping several enemies in one tick damages
exactly the first overlapped enemy (20 damage) and is destroyed; every other
enemy — including later ones it also overlaps — is left exactly unchanged,
and the score changes only by that one enemy's kill reward. -/
theorem c4_projectile_hits_one_enemy (es1 : List Enemy) (e : Enemy)
    (es2 : List Enemy) (b : Bullet) (sc : ℤ)
    (h1 : ∀ e' ∈ es1, collideRect e'.rect b.rect = false)
    (h2 : collideRect e.rect b.rect = true) :
    hitPhase (es1 ++ e :: es2) [b] sc =
      ((if e.hp - 20 ≤ 0 then es1 ++ es2
        else es1 ++ ({ e with hp := e.hp - 20 } :: es2)),
       [],
       if e.hp - 20 ≤ 0 then sc + 10 * e.tier else sc) := by
  induction es1 with
  | nil =>
    simp only [List.nil_append]
    by_cases hk : e.hp - 20 ≤ 0
    · rw [hitPhase, procEnemyHits_hit e b sc h2, if_pos hk]
      simp [hitPhase_no_bullets, hk]
    · rw [hitPhase, procEnemyHits_hit e b sc h2, if_neg hk]
      simp [hitPhase_no_bullets, hk]
  | cons a es1 ih =>
    have ha : collideRect a.rect b.rect = false := h1 a (List.mem_cons_self a es1)
    have h1' : ∀ e' ∈ es1, collideRect e'.rect b.rect = false := fun e' he' =>
      h1 e' (List.mem_cons_of_mem a he')
    have hea : ({ a with hp := a.hp } : Enemy) = a := rfl
    simp only [List.cons_append]
    rw [hitPhase, procEnemyHits_miss a b sc ha]
    simp only [ih h1', hea]
    by_cases hk : e.hp - 20 ≤ 0 <;> simp [hk]

/-- Witness for C4: one bullet lying inside two overlapping tier-1 enemies:
only the first enemy is damaged (40 → 20 hp), the second keeps 40 hp, the
bullet is destroyed, the score does not change. -/
theorem c4_projectile_hits_one_enemy_witness :
    hitPhase [⟨100, 100, 0, 0, 40, 1, 170, 20, ⟨80, 80, 40, 40⟩⟩,
              ⟨110, 100, 0, 0, 40, 1, 170, 20, ⟨90, 80, 40, 40⟩⟩]
        [⟨100, 100, 0, 0, 70, ⟨95, 95, 10, 10⟩⟩] 5
      = ([⟨100, 100, 0, 0, 20, 1, 170, 20, ⟨80, 80, 40, 40⟩⟩,
          ⟨110, 100, 0, 0, 40, 1, 170, 20, ⟨90, 80, 40, 40⟩⟩], [], 5) := by
  have h := c4_projectile_hits_one_enemy []
    ⟨100, 100, 0, 0, 40, 1, 170, 20, ⟨80, 80, 40, 40⟩⟩
    [⟨110, 100, 0, 0, 40, 1, 170, 20, ⟨90, 80, 40, 40⟩⟩]
    ⟨100, 100, 0, 0, 70, ⟨95, 95, 10, 10⟩⟩ 5
    (by intro e' he'; cases he') (by decide)
  rw [List.nil_append] at h
  rw [h]
  decide

/-- C5 (code bug): an enemy already reduced to 20 hp that is overlapped by
two bullets in the same tick is killed, both bullets are consumed, and the
score increases by `10 * tier` twice (here `2 * 10 * 1 = 20`): the dead
enemy keeps absorbing bullets inside the same tick and the kill reward is
granted again on every hit at or beyond the lethal threshold, contradicting
the "exactly `10 * tier` per kill" rule. -/
theorem c5_score_double_counted :
    hitPhase [⟨100, 100, 0, 0, 20, 1, 170, 20, ⟨80, 80, 40, 40⟩⟩]
        [⟨100, 100, 0, 0, 70, ⟨95, 95, 10, 10⟩⟩,
         ⟨102, 100, 0, 0, 70, ⟨97, 95, 10, 10⟩⟩] 0
      = ([], [], 20) := by
  decide

/-!  C8: wave spawning. -/

theorem findSpawn_spec (randxy : ℕ → ℤ × ℤ) (grid : ℤ → ℤ → ℕ) (pp : ℚ × ℚ)
    (fuel : ℕ) :
    ∀ i pos i', findSpawn randxy grid pp fuel i = some (pos, i') →
      ∃ x y : ℤ, grid y x = 0 ∧ pos = ((x : ℚ) * 48 + 24, (y : ℚ) * 48 + 24)
        ∧ dist2 pos pp > 380 ^ 2 := by
  induction fuel with
  | zero =>
    intro i pos i' h
    cases h
  | succ fuel ih =>
    intro i pos i' h
    simp only [findSpawn] at h
    split_ifs at h with hg hd
    · obtain ⟨h1, h2⟩ := Prod.mk.injEq .. ▸ Option.some.inj h
      exact ⟨(randxy i).1, (randxy i).2, hg, h1.symm, h1 ▸ hd⟩
    · exact ih _ _ _ h
    · exact ih _ _ _ h

theorem spawnEnemies_spec (randq : ℕ → ℚ) (randxy : ℕ → ℤ × ℤ)
    (grid : ℤ → ℤ → ℕ) (pp : ℚ × ℚ) (wave : ℤ) (fuel : ℕ) (n : ℕ) :
    ∀ j i es, spawnEnemies randq randxy grid pp wave fuel n j i = some es →
      es.length = n
      ∧ (∀ k (hk : k < es.length),
          (es.get ⟨k, hk⟩).tier
            = if wave < 3 then 1 else if randq (j + k) < 3 / 5 then 2 else 3)
      ∧ (∀ e ∈ es, ∃ x y : ℤ, grid y x = 0 ∧ e.posx = (x : ℚ) * 48 + 24
          ∧ e.posy = (y : ℚ) * 48 + 24
          ∧ dist2 (e.posx, e.posy) pp > 380 ^ 2) := by
  induction n with
  | zero =>
    intro j i es h
    simp only [spawnEnemies] at h
    injection h with h
    subst h
    refine ⟨rfl, ?_, ?_⟩
    · intro k hk
      cases hk
    · intro e he
      cases he
  | succ n ih =>
    intro j i es h
    simp only [spawnEnemies] at h
    cases hf : findSpawn randxy grid pp fuel i with
    | none =>
      rw [hf] at h
      cases h
    | some pi =>
      obtain ⟨pos, i'⟩ := pi
      rw [hf] at h
      dsimp only at h
      cases hs : spawnEnemies randq randxy grid pp wave fuel n (j + 1) i' with
      | none =>
        rw [hs] at h
        cases h
      | some es' =>
        rw [hs] at h
        dsimp only at h
        injection h with h
        subst h
        obtain ⟨hlen, htier, hpos⟩ := ih (j + 1) i' es' hs
        refine ⟨by simp [hlen], ?_, ?_⟩
        · intro k hk
          cases k with
          | zero =>
            simp [mkEnemy]
          | succ k =>
            have hk' : k < es'.length := by
              simp only [List.length_cons] at hk
              omega
            have ht := htier k hk'
            have harith : j + 1 + k = j + (k + 1) := by omega
            rw [harith] at ht
            simpa using ht
        · intro e he
          rcases List.mem_cons.mp he with he | he
          · obtain ⟨x, y, hg, hpo, hd⟩ := findSpawn_spec randxy grid pp fuel i pos i' hf
            subst he
            refine ⟨x, y, hg, by simp [mkEnemy, hpo], by simp [mkEnemy, hpo], ?_⟩
            have hpp : ((mkEnemy pos
                  (if wave < 3 then 1 else if randq j < 3 / 5 then 2 else 3)).posx,
                (mkEnemy pos
                  (if wave < 3 then 1 else if randq j < 3 / 5 then 2 else 3)).posy)
                = pos := by
              simp [mkEnemy]
            rw [hpp]
            exact hd
          · exact hpos e he

/-- C8: whenever `spawn_wave` succeeds it increments the wave counter to `N`
and adds exactly `6 + 2N` enemies; every added enemy is tier 1 when `N < 3`
and otherwise tier 2 exactly when its tier draw is below 0.6 (else tier 3);
every spawn position is the center of an Open grid cell at squared distance
greater than `380²` from the player; and the per-tick wave trigger fires
exactly when the live enemy count is zero. -/
theorem c8_spawn_wave_contract (randq : ℕ → ℚ) (randxy : ℕ → ℤ × ℤ)
    (grid : ℤ → ℤ → ℕ) (g : Game) (fuel : ℕ) (g' : Game)
    (h : spawn_wave randq randxy grid g fuel = some g') :
    g'.wave = g.wave + 1
    ∧ g'.enemies.length = g.enemies.length + (6 + (g.wave + 1) * 2).toNat
    ∧ (∀ e ∈ g'.enemies.drop g.enemies.length,
        (g.wave + 1 < 3 → e.tier = 1)
        ∧ (¬g.wave + 1 < 3 → e.tier = 2 ∨ e.tier = 3)
        ∧ ∃ x y : ℤ, grid y x = 0 ∧ e.posx = (x : ℚ) * 48 + 24
            ∧ e.posy = (y : ℚ) * 48 + 24
            ∧ dist2 (e.posx, e.posy) (g.player.posx, g.player.posy) > 380 ^ 2)
    ∧ (∀ k (hk : k < (g'.enemies.drop g.enemies.length).length),
        ((g'.enemies.drop g.enemies.length).get ⟨k, hk⟩).tier
          = if g.wave + 1 < 3 then 1 else if randq k < 3 / 5 then 2 else 3)
    ∧ (g.enemies.length ≠ 0 → next_wave_check randq randxy grid g fuel = some g)
    ∧ (g.enemies.length = 0 →
        next_wave_check randq randxy grid g fuel
          = spawn_wave randq randxy grid g fuel) := by
  simp only [spawn_wave] at h
  cases hs : spawnEnemies randq randxy grid (g.player.posx, g.player.posy)
      (g.wave + 1) fuel (6 + (g.wave + 1) * 2).toNat 0 0 with
  | none =>
    rw [hs] at h
    cases h
  | some es =>
    rw [hs] at h
    dsimp only at h
    injection h with h
    subst h
    obtain ⟨hlen, htier, hpos⟩ := spawnEnemies_spec randq randxy grid
      (g.player.posx, g.player.posy) (g.wave + 1) fuel _ 0 0 es hs
    have hdrop : ({ g with wave := g.wave + 1, enemies := g.enemies ++ es } :
        Game).enemies.drop g.enemies.length = es := by
      simp [List.drop_left]
    refine ⟨rfl, by simp [hlen], ?_, ?_, ?_, ?_⟩
    · rw [hdrop]
      intro e he
      obtain ⟨⟨k, hk⟩, hke⟩ := List.mem_iff_get.mp he
      have ht := htier k hk
      rw [hke] at ht
      refine ⟨fun hw => by simpa [if_pos hw] using ht,
              fun hw => ?_, hpos e he⟩
      rw [if_neg hw] at ht
      by_cases hq : randq (0 + k) < 3 / 5
      · exact Or.inl (by rw [ht, if_pos hq])
      · exact Or.inr (by rw [ht, if_neg hq])
    · rw [hdrop]
      intro k hk
      have := htier k hk
      simpa using this
    · intro hne
      simp [next_wave_check, hne]
    · intro he
      simp [next_wave_check, he]


/-- Witness for C8: on an all-open grid with the position oracle answering
cell `(10, 10)`, spawning the first wave from wave counter 0 yields wave 1
with exactly 8 enemies. -/
theorem c8_spawn_wave_contract_witness :
    waveOneGame.wave = waveZeroGame.wave + 1
    ∧ waveOneGame.enemies.length
        = waveZeroGame.enemies.length + (6 + (waveZeroGame.wave + 1) * 2).toNat :=
  ⟨(c8_spawn_wave_contract (fun _ => 0) (fun _ => (10, 10)) openGrid
      waveZeroGame 1 waveOneGame (by
        norm_num [spawn_wave, spawnEnemies, findSpawn, openGrid, waveZeroGame,
          waveOneGame, mkGame, mkPlayer, mkEnemy, mkEntityRect, dist2, pyInt,
          List.replicate])).1,
   (c8_spawn_wave_contract (fun _ => 0) (fun _ => (10, 10)) openGrid
      waveZeroGame 1 waveOneGame (by
        norm_num [spawn_wave, spawnEnemies, findSpawn, openGrid, waveZeroGame,
          waveOneGame, mkGame, mkPlayer, mkEnemy, mkEntityRect, dist2, pyInt,
          List.replicate])).2.1⟩


/-!  C1: axis-separated collision resolution. -/

theorem collideRect_false_of_flush_right (a b : Rect) (h : a.x + a.w = b.x) :
    collideRect a b = false := by
  cases hcb : collideRect a b with
  | false => rfl
  | true =>
    obtain ⟨-, -, -, -, -, h6, -, -⟩ := (collideRect_iff a b).mp hcb
    omega

theorem collideRect_false_of_flush_left (a b : Rect) (h : b.x + b.w = a.x) :
    collideRect a b = false := by
  cases hcb : collideRect a b with
  | false => rfl
  | true =>
    obtain ⟨-, -, -, -, h5, -, -, -⟩ := (collideRect_iff a b).mp hcb
    omega

theorem collideRect_false_of_flush_bottom (a b : Rect) (h : a.y + a.h = b.y) :
    collideRect a b = false := by
  cases hcb : collideRect a b with
  | false => rfl
  | true =>
    obtain ⟨-, -, -, -, -, -, -, h8⟩ := (collideRect_iff a b).mp hcb
    omega

theorem collideRect_false_of_flush_top (a b : Rect) (h : b.y + b.h = a.y) :
    collideRect a b = false := by
  cases hcb : collideRect a b with
  | false => rfl
  | true =>
    obtain ⟨-, -, -, -, -, -, h7, -⟩ := (collideRect_iff a b).mp hcb
    omega

theorem moveX_single_hit_pos (w : Rect) (dt : ℚ) (e : Ent) (hv : 0 < e.velx)
    (hc : collideRect (setCenterx e.rect (pyInt (e.posx + e.velx * dt))) w = true) :
    moveX [w] dt e =
      { e with
          posx := (((setRight (setCenterx e.rect (pyInt (e.posx + e.velx * dt)))
            w.x).centerx : ℤ) : ℚ),
          rect := setRight (setCenterx e.rect (pyInt (e.posx + e.velx * dt))) w.x } := by
  unfold moveX
  dsimp only
  rw [rect_collide_singleton, if_pos hc]
  simp [List.foldl, hv]

theorem moveX_single_hit_neg (w : Rect) (dt : ℚ) (e : Ent) (hv : e.velx < 0)
    (hc : collideRect (setCenterx e.rect (pyInt (e.posx + e.velx * dt))) w = true) :
    moveX [w] dt e =
      { e with
          posx := (((setLeft (setCenterx e.rect (pyInt (e.posx + e.velx * dt)))
            (w.x + w.w)).centerx : ℤ) : ℚ),
          rect := setLeft (setCenterx e.rect (pyInt (e.posx + e.velx * dt)))
            (w.x + w.w) } := by
  unfold moveX
  dsimp only
  rw [rect_collide_singleton, if_pos hc]
  simp [List.foldl, hv, lt_asymm hv]

theorem moveX_single_miss (w : Rect) (dt : ℚ) (e : Ent)
    (hc : collideRect (setCenterx e.rect (pyInt (e.posx + e.velx * dt))) w = false) :
    moveX [w] dt e =
      { e with
          posx := e.posx + e.velx * dt,
          rect := setCenterx e.rect (pyInt (e.posx + e.velx * dt)) } := by
  unfold moveX
  dsimp only
  rw [rect_collide_singleton, if_neg (by simp [hc])]
  simp [List.foldl]

theorem moveY_single_hit_pos (w : Rect) (dt : ℚ) (e : Ent) (hv : 0 < e.vely)
    (hc : collideRect (setCentery e.rect (pyInt (e.posy + e.vely * dt))) w = true) :
    moveY [w] dt e =
      { e with
          posy := (((setBottom (setCentery e.rect (pyInt (e.posy + e.vely * dt)))
            w.y).centery : ℤ) : ℚ),
          rect := setBottom (setCentery e.rect (pyInt (e.posy + e.vely * dt))) w.y } := by
  unfold moveY
  dsimp only
  rw [rect_collide_singleton, if_pos hc]
  simp [List.foldl, hv]

theorem moveY_single_hit_neg (w : Rect) (dt : ℚ) (e : Ent) (hv : e.vely < 0)
    (hc : collideRect (setCentery e.rect (pyInt (e.posy + e.vely * dt))) w = true) :
    moveY [w] dt e =
      { e with
          posy := (((setTop (setCentery e.rect (pyInt (e.posy + e.vely * dt)))
            (w.y + w.h)).centery : ℤ) : ℚ),
          rect := setTop (setCentery e.rect (pyInt (e.posy + e.vely * dt)))
            (w.y + w.h) } := by
  unfold moveY
  dsimp only
  rw [rect_collide_singleton, if_pos hc]
  simp [List.foldl, hv, lt_asymm hv]

theorem moveY_single_miss (w : Rect) (dt : ℚ) (e : Ent)
    (hc : collideRect (setCentery e.rect (pyInt (e.posy + e.vely * dt))) w = false) :
    moveY [w] dt e =
      { e with
          posy := e.posy + e.vely * dt,
          rect := setCentery e.rect (pyInt (e.posy + e.vely * dt)) } := by
  unfold moveY
  dsimp only
  rw [rect_collide_singleton, if_neg (by simp [hc])]
  simp [List.foldl]

/-- C1: `collide_move` is by definition the X phase resolved fully first and
the Y phase run on the already-clamped X state, and it never modifies the
velocity (so an entity hitting a wall corner diagonally keeps its nonzero
velocity component along the unobstructed axis — sliding).  An entity whose
X-displaced rect overlaps a solid rect while moving in +X (resp. −X) ends
the tick with its right (resp. left) edge exactly flush with the rect's left
(resp. right) edge and no residual overlap; symmetrically on the Y axis for
an entity whose X phase is collision-free. -/
theorem c1_collide_move_resolution (walls : List Rect) (dt speed : ℚ)
    (e : Ent) (w : Rect) :
    (collide_move walls dt speed e = moveY walls dt (moveX walls dt e)
     ∧ (collide_move walls dt speed e).velx = e.velx
     ∧ (collide_move walls dt speed e).vely = e.vely)
    ∧ (0 < e.velx →
        collideRect (setCenterx e.rect (pyInt (e.posx + e.velx * dt))) w = true →
        ((collide_move [w] dt speed e).rect.x
            + (collide_move [w] dt speed e).rect.w = w.x
         ∧ collideRect (collide_move [w] dt speed e).rect w = false))
    ∧ (e.velx < 0 →
        collideRect (setCenterx e.rect (pyInt (e.posx + e.velx * dt))) w = true →
        ((collide_move [w] dt speed e).rect.x = w.x + w.w
         ∧ collideRect (collide_move [w] dt speed e).rect w = false))
    ∧ (0 < e.vely →
        collideRect (setCenterx e.rect (pyInt (e.posx + e.velx * dt))) w = false →
        collideRect (setCentery (setCenterx e.rect (pyInt (e.posx + e.velx * dt)))
          (pyInt (e.posy + e.vely * dt))) w = true →
        ((collide_move [w] dt speed e).rect.y
            + (collide_move [w] dt speed e).rect.h = w.y
         ∧ collideRect (collide_move [w] dt speed e).rect w = false))
    ∧ (e.vely < 0 →
        collideRect (setCenterx e.rect (pyInt (e.posx + e.velx * dt))) w = false →
        collideRect (setCentery (setCenterx e.rect (pyInt (e.posx + e.velx * dt)))
          (pyInt (e.posy + e.vely * dt))) w = true →
        ((collide_move [w] dt speed e).rect.y = w.y + w.h
         ∧ collideRect (collide_move [w] dt speed e).rect w = false)) := by
  refine ⟨⟨rfl, rfl, rfl⟩, ?_, ?_, ?_, ?_⟩
  · intro hv hc
    unfold collide_move
    rw [moveX_single_hit_pos w dt e hv hc]
    have hflush : ∀ v : ℤ,
        (setCentery (setRight (setCenterx e.rect (pyInt (e.posx + e.velx * dt)))
          w.x) v).x
        + (setCentery (setRight (setCenterx e.rect (pyInt (e.posx + e.velx * dt)))
          w.x) v).w = w.x := by
      intro v
      simp [setCentery, setRight, setCenterx]
    rw [moveY_single_miss w dt _ (collideRect_false_of_flush_right _ _ (hflush _))]
    exact ⟨hflush _, collideRect_false_of_flush_right _ _ (hflush _)⟩
  · intro hv hc
    unfold collide_move
    rw [moveX_single_hit_neg w dt e hv hc]
    have hflush : ∀ v : ℤ,
        (setCentery (setLeft (setCenterx e.rect (pyInt (e.posx + e.velx * dt)))
          (w.x + w.w)) v).x = w.x + w.w := by
      intro v
      simp [setCentery, setLeft, setCenterx]
    rw [moveY_single_miss w dt _
      (collideRect_false_of_flush_left _ _ (hflush _).symm)]
    exact ⟨hflush _, collideRect_false_of_flush_left _ _ (hflush _).symm⟩
  · intro hv hx hcy
    unfold collide_move
    rw [moveX_single_miss w dt e hx]
    rw [moveY_single_hit_pos w dt
      { posx := e.posx + e.velx * dt, posy := e.posy, velx := e.velx,
        vely := e.vely,
        rect := setCenterx e.rect (pyInt (e.posx + e.velx * dt)) } hv hcy]
    have hflush :
        (setBottom (setCentery (setCenterx e.rect (pyInt (e.posx + e.velx * dt)))
          (pyInt (e.posy + e.vely * dt))) w.y).y
        + (setBottom (setCentery (setCenterx e.rect (pyInt (e.posx + e.velx * dt)))
          (pyInt (e.posy + e.vely * dt))) w.y).h = w.y := by
      simp [setBottom, setCentery, setCenterx]
    exact ⟨hflush, collideRect_false_of_flush_bottom _ _ hflush⟩
  · intro hv hx hcy
    unfold collide_move
    rw [moveX_single_miss w dt e hx]
    rw [moveY_single_hit_neg w dt
      { posx := e.posx + e.velx * dt, posy := e.posy, velx := e.velx,
        vely := e.vely,
        rect := setCenterx e.rect (pyInt (e.posx + e.velx * dt)) } hv hcy]
    have hflush :
        (setTop (setCentery (setCenterx e.rect (pyInt (e.posx + e.velx * dt)))
          (pyInt (e.posy + e.vely * dt))) (w.y + w.h)).y = w.y + w.h := by
      simp [setTop, setCentery, setCenterx]
    exact ⟨hflush, collideRect_false_of_flush_top _ _ hflush.symm⟩

/-- Witness for C1: an entity at `(60, 28)` moving right-and-down into the
wall rect `[96, 144) × [0, 48)` with `dt = 0.1` ends flush (`right = 96`),
with no residual overlap, and keeps its downward velocity component 5. -/
theorem c1_collide_move_resolution_witness :
    (0 : ℚ) < 400
    ∧ ((collide_move [⟨96, 0, 48, 48⟩] (1 / 10) 0
          ⟨60, 28, 400, 5, ⟨40, 8, 40, 40⟩⟩).rect.x
        + (collide_move [⟨96, 0, 48, 48⟩] (1 / 10) 0
          ⟨60, 28, 400, 5, ⟨40, 8, 40, 40⟩⟩).rect.w = 96
       ∧ collideRect (collide_move [⟨96, 0, 48, 48⟩] (1 / 10) 0
          ⟨60, 28, 400, 5, ⟨40, 8, 40, 40⟩⟩).rect ⟨96, 0, 48, 48⟩ = false)
    ∧ (collide_move [⟨96, 0, 48, 48⟩] (1 / 10) 0
        ⟨60, 28, 400, 5, ⟨40, 8, 40, 40⟩⟩).vely = 5 :=
  ⟨by norm_num,
   (c1_collide_move_resolution [⟨96, 0, 48, 48⟩] (1 / 10) 0
      ⟨60, 28, 400, 5, ⟨40, 8, 40, 40⟩⟩ ⟨96, 0, 48, 48⟩).2.1 (by norm_num)
      (by
        have h100 : pyInt ((60 : ℚ) + 400 * (1 / 10)) = 100 := by
          norm_num [pyInt]
        show collideRect (setCenterx ⟨40, 8, 40, 40⟩
          (pyInt ((60 : ℚ) + 400 * (1 / 10)))) ⟨96, 0, 48, 48⟩ = true
        rw [h100]
        decide),
   (c1_collide_move_resolution [⟨96, 0, 48, 48⟩] (1 / 10) 0
      ⟨60, 28, 400, 5, ⟨40, 8, 40, 40⟩⟩ ⟨96, 0, 48, 48⟩).1.2.2⟩

end GunGame
